import Mathlib

/-!
Verification development for the SAM2 seeking-robot simulation.

The agent control core (file `src/unnamed/part_001`, the `Agent` component) is
shallowly embedded here: the mutable React refs become fields of an explicit
`AgentState` record, one `useFrame` callback becomes the pure function
`agentTick`, and every numeric value is an exact rational.  `Math.PI` is
embedded as `mathPI`, the exact rational value of the IEEE-754 double the
source compares against.  The transcendental functions the source calls
(`Math.sin`, `Math.cos`, `Math.atan2`, `Math.sqrt`) only influence claims
through the positions and headings they produce, never through the control
flow facts proved below, so they are passed in as an uninterpreted `Trig`
record of rational functions.

The mission sequencer of `src/unnamed/part_000` (`handleNextStep`,
`handleVisionCapture`) and the vision HTTP client of `src/services/sam2.ts`
(`getNavCommand`) are embedded as pure functions over explicit state and an
explicit fetch outcome.
-/

namespace SAM2

/-- Navigation command enumeration (`ActionType` of `types.ts`). -/
inductive ActionType where
  | IDLE
  | FORWARD
  | LEFT
  | RIGHT
  | STOP
  | SCAN
deriving DecidableEq, Repr

/-- A THREE.Vector3 as consumed by the control core, with exact rational
coordinates. -/
structure Vec3 where
  x : ℚ
  y : ℚ
  z : ℚ
deriving DecidableEq, Repr

/-- Exact rational value of the IEEE-754 double `Math.PI`
(3.141592653589793115997963...), the constant the source's thresholds and
angle normalization compare against. -/
def mathPI : ℚ := 884279719003555 / 281474976710656

/-- Agent radius constant (`AGENT_RADIUS = 0.4` in the source). -/
def AGENT_RADIUS : ℚ := 0.4

/-- Collision cooldown constant (`COLLISION_COOLDOWN_TIME = 1.0`). -/
def COLLISION_COOLDOWN_TIME : ℚ := 1

/-- THREE.MathUtils.lerp: `x + (y - x) * t`, with no clamping of `t`. -/
def lerp (x y t : ℚ) : ℚ := x + (y - x) * t

/-- THREE.MathUtils.clamp: `Math.max(min, Math.min(max, value))`. -/
def clampQ (value lo hi : ℚ) : ℚ := max lo (min hi value)

/-- Command remapping when the rear camera view is active (source lines
126-143).  When `useRearView` is false the command passes through; otherwise
LEFT and RIGHT are swapped and every other command (the `default` branch
covers IDLE) is returned unchanged. -/
def flipCommand (useRearView : Bool) (cmd : ActionType) : ActionType :=
  if useRearView = false then cmd
  else
    match cmd with
    | .FORWARD => .FORWARD
    | .LEFT => .RIGHT
    | .RIGHT => .LEFT
    | .SCAN => .SCAN
    | .STOP => .STOP
    | c => c

/-- Central-wall segment half width (`wallSegmentHalfWidth = 8.5`). -/
def wallSegmentHalfWidth : ℚ := 8.5

/-- Gap half width (`gapHalfWidth = 3`). -/
def gapHalfWidth : ℚ := 3

/-- Center x of the left (west) solid wall segment:
`-(wallSegmentHalfWidth + gapHalfWidth)`. -/
def leftWallCenterX : ℚ := -(wallSegmentHalfWidth + gapHalfWidth)

/-- Center x of the right (east) solid wall segment. -/
def rightWallCenterX : ℚ := wallSegmentHalfWidth + gapHalfWidth

/-- Squared Euclidean distance between two vectors.  The source compares
`agentPos.distanceTo(targetPos) < minDistance`; both sides are nonnegative, so
the embedded target check compares the squares, which is equivalent. -/
def distSq (a b : Vec3) : ℚ := (a.x - b.x) ^ 2 + (a.y - b.y) ^ 2 + (a.z - b.z) ^ 2

/-- Boundary-wall and obstacle checks of `checkCollisions` (source lines
170-209): the code that runs when control falls through the central-wall
block. -/
def checkCollisionsRest (agentPos : Vec3) (targets : List Vec3) : Bool :=
  if |agentPos.z - 14| < AGENT_RADIUS + 0.5 / 2 ∧ |agentPos.x| < 14 then true
  else if |agentPos.z + 14| < AGENT_RADIUS + 0.5 / 2 ∧ |agentPos.x| < 14 then true
  else if |agentPos.x - 14| < AGENT_RADIUS + 0.5 / 2 ∧ |agentPos.z| < 14 then true
  else if |agentPos.x + 14| < AGENT_RADIUS + 0.5 / 2 ∧ |agentPos.z| < 14 then true
  else targets.any (fun t => distSq agentPos t < (AGENT_RADIUS + 0.5) ^ 2)

/-- Collision check of the agent against the central wall, the boundary walls
and the obstacle list (source lines 146-210).  Inside the central wall's
thickness band, hitting either inflated solid segment returns true, being in
the gap band returns false immediately, and otherwise control falls through
to the boundary and obstacle checks. -/
def checkCollisions (agentPos : Vec3) (targets : List Vec3) : Bool :=
  if |agentPos.z - 0| < AGENT_RADIUS + 0.25 then
    if |agentPos.x - leftWallCenterX| < wallSegmentHalfWidth + AGENT_RADIUS then true
    else if |agentPos.x - rightWallCenterX| < wallSegmentHalfWidth + AGENT_RADIUS then true
    else if |agentPos.x| < gapHalfWidth then false
    else checkCollisionsRest agentPos targets
  else checkCollisionsRest agentPos targets

/-- Scalar kinematics updated by `updateMovement`: forward velocity and
angular velocity. -/
structure Kinematics where
  velocity : ℚ
  rotationVelocity : ℚ
deriving DecidableEq, Repr

/-- Speed cap of `updateMovement`: 7.5 while pathfinding, 2.5 otherwise. -/
def MAX_SPEED (pathfindingMode : Bool) : ℚ := if pathfindingMode then 7.5 else 2.5

/-- Angular speed constant (`ROT_SPEED = 0.675`). -/
def ROT_SPEED : ℚ := 0.675

/-- Target (velocity, rotation velocity) pair chosen by the `switch` in
`updateMovement` (source lines 220-240).  STOP and the default (IDLE) both
yield (0, 0). -/
def movementTargets (pathfindingMode : Bool) (effectiveAction : ActionType)
    (k : Kinematics) : ℚ × ℚ :=
  match effectiveAction with
  | .FORWARD => (MAX_SPEED pathfindingMode, 0)
  | .LEFT => (k.velocity * 0.5, ROT_SPEED)
  | .RIGHT => (k.velocity * 0.5, -ROT_SPEED)
  | .SCAN => (0, ROT_SPEED * 0.8 * 1.5)
  | _ => (0, 0)

/-- Per-tick velocity integrator (source lines 213-244): first-order lerp of
both velocities toward command-specific targets.  The `pathfindingMode` ref
read by the source is lifted to an explicit argument; the `agentPos` argument
of the source is unused by its body and omitted. -/
def updateMovement (pathfindingMode : Bool) (delta : ℚ) (effectiveAction : ActionType)
    (k : Kinematics) : Kinematics :=
  { velocity := lerp k.velocity (movementTargets pathfindingMode effectiveAction k).1 (delta * 2),
    rotationVelocity :=
      lerp k.rotationVelocity (movementTargets pathfindingMode effectiveAction k).2 (delta * 4) }

/-- Maze half, as the source's 'north' / 'south' strings. -/
inductive WallSide where
  | north
  | south
deriving DecidableEq, Repr

/-- Which side of the dividing wall the agent is on (source lines 247-249):
`agentZ >= 0 ? 'north' : 'south'`. -/
def determineAgentSide (agentZ : ℚ) : WallSide :=
  if 0 ≤ agentZ then .north else .south

/-- Which side of the dividing wall a target is on (source lines 252-254). -/
def determineTargetSide (targetZ : ℚ) : WallSide :=
  if 0 ≤ targetZ then .north else .south

/-- The opposite maze half (`currentAgentSide === 'north' ? 'south' : 'north'`). -/
def oppositeSide (s : WallSide) : WallSide :=
  match s with
  | .north => .south
  | .south => .north

/-- Safe interior boundary used by the path synthesis (`BOUNDARY = 12`). -/
def BOUNDARY : ℚ := 12

/-- Deterministic waypoint synthesis through the wall gap (source lines
257-310).  If the agent already starts on the target side the path is the
start plus one exploration point; otherwise it is the six fixed legs: start,
gap alignment, approach, gap center, exit, exploration point, spread point.
The source's `GAP_WIDTH`/`GAP_HALF` locals are computed but never used and are
omitted. -/
def findPathThroughGap (startX startZ : ℚ) (targetSide : WallSide) : List (ℚ × ℚ) :=
  if determineAgentSide startZ = targetSide then
    [(startX, startZ),
     (0, if targetSide = .north then min 10 BOUNDARY else max (-10) (-BOUNDARY))]
  else
    [(startX, startZ),
     (0, if determineAgentSide startZ = .north then 5 else -5),
     (0, if determineAgentSide startZ = .north then 2 else -2),
     (0, 0),
     (0, if targetSide = .north then 2 else -2),
     (0, if targetSide = .north then min 8 BOUNDARY else max (-8) (-BOUNDARY)),
     (min (max startX (-BOUNDARY)) BOUNDARY,
      if targetSide = .north then min 10 BOUNDARY else max (-10) (-BOUNDARY))]

/-- Second branch of the source's angle normalization: add a full turn when
below negative pi. -/
def normalizeAngleUp (d : ℚ) : ℚ := if d < -mathPI then d + 2 * mathPI else d

/-- Sequential angle normalization of the source (lines 376-378 and 349-351):
subtract a full turn when above pi, then add one when below negative pi. -/
def normalizeAngle (d : ℚ) : ℚ :=
  normalizeAngleUp (if mathPI < d then d - 2 * mathPI else d)

/-- Uninterpreted rational stand-ins for the transcendental functions the
source calls.  No claim proved below depends on their values. -/
structure Trig where
  sin : ℚ → ℚ
  cos : ℚ → ℚ
  atan2 : ℚ → ℚ → ℚ
  sqrt : ℚ → ℚ

/-- All-zero instantiation of `Trig`, used to evaluate the tick at concrete
inputs. -/
def trig0 : Trig :=
  { sin := fun _ => 0, cos := fun _ => 0, atan2 := fun _ _ => 0, sqrt := fun _ => 0 }

/-- State of the agent: every mutable ref of the `Agent` component (source
lines 87-113) plus the group's position and y rotation (heading). -/
structure AgentState where
  position : Vec3
  heading : ℚ
  velocity : ℚ
  rotationVelocity : ℚ
  collisionDetected : Bool
  collisionCooldown : ℚ
  useRearView : Bool
  viewSwitchCooldown : ℚ
  explorationMode : Bool
  explorationStartTime : ℚ
  explorationPhase : ℕ
  lastRotationAngle : ℚ
  totalRotation : ℚ
  scanRotation : ℚ
  pathfindingMode : Bool
  currentPath : List (ℚ × ℚ)
  currentPathIndex : ℕ
deriving DecidableEq, Repr

/-- Per-tick inputs of the `useFrame` callback: the externally supplied
command, the assigned target position, the frame delta, and the rendering
clock's elapsed time. -/
structure TickInputs where
  action : ActionType
  targetPosition : Option Vec3
  delta : ℚ
  elapsedTime : ℚ
deriving DecidableEq, Repr

/-- Guard of the pathfinding activation block (source line 384):
`scanRotation.current > 2 * Math.PI && !pathfindingMode.current &&
targetPosition`. -/
def activationFires (inp : TickInputs) (s : AgentState) : Prop :=
  2 * mathPI < s.scanRotation ∧ s.pathfindingMode = false ∧ inp.targetPosition.isSome = true

instance activationFiresDec (inp : TickInputs) (s : AgentState) :
    Decidable (activationFires inp s) :=
  inferInstanceAs (Decidable (_ ∧ _ ∧ _))

/-- Pathfinding activation block (source lines 384-413).  When the guard
fires: enter pathfinding mode, synthesize a path to the half opposite the
agent's current half, reset the waypoint index, force the front view, leave
exploration mode, and zero both rotation accumulators. -/
def pathfindingActivationStep (inp : TickInputs) (s : AgentState) : AgentState :=
  if activationFires inp s then
    { s with
      pathfindingMode := true,
      currentPath :=
        findPathThroughGap s.position.x s.position.z
          (oppositeSide (determineAgentSide s.position.z)),
      currentPathIndex := 0,
      useRearView := false,
      explorationMode := false,
      totalRotation := 0,
      scanRotation := 0 }
  else s

/-- Guard of the exploration activation block (source line 418):
`totalRotation.current > 2 * Math.PI && !explorationMode.current &&
!targetPosition`. -/
def explorationActivationFires (inp : TickInputs) (s : AgentState) : Prop :=
  2 * mathPI < s.totalRotation ∧ s.explorationMode = false ∧ inp.targetPosition.isSome = false

instance explorationActivationFiresDec (inp : TickInputs) (s : AgentState) :
    Decidable (explorationActivationFires inp s) :=
  inferInstanceAs (Decidable (_ ∧ _ ∧ _))

/-- Exploration activation block (source lines 418-424). -/
def explorationActivationStep (inp : TickInputs) (s : AgentState) : AgentState :=
  if explorationActivationFires inp s then
    { s with
      explorationMode := true,
      explorationStartTime := inp.elapsedTime,
      explorationPhase := 0,
      totalRotation := 0 }
  else s

/-- Steering decision of `followPath` toward `currentWaypoint` (source lines
344-363): bearing via atan2, smallest signed angle difference, then FORWARD
within 0.1 rad, else LEFT or RIGHT by sign.  The state is returned
unchanged. -/
def followSteer (tr : Trig) (s : AgentState) (currentWaypoint : ℚ × ℚ) :
    ActionType × AgentState :=
  if |normalizeAngle (tr.atan2 (currentWaypoint.1 - s.position.x)
        (currentWaypoint.2 - s.position.z) - s.heading)| < 0.1 then
    (.FORWARD, s)
  else if 0 < normalizeAngle (tr.atan2 (currentWaypoint.1 - s.position.x)
        (currentWaypoint.2 - s.position.z) - s.heading) then
    (.LEFT, s)
  else
    (.RIGHT, s)

/-- The `followPath` function (source lines 320-364), with its side effects
on `currentPathIndex` and `pathfindingMode` made explicit.  An exhausted or
empty path returns STOP and leaves pathfinding mode; within one unit of the
current waypoint the index advances (and the steering still targets the old
waypoint, as in the source); otherwise steer toward the waypoint. -/
def followPathStep (tr : Trig) (s : AgentState) : ActionType × AgentState :=
  if s.currentPath.length = 0 ∨ s.currentPath.length ≤ s.currentPathIndex then
    (.STOP, { s with pathfindingMode := false })
  else if tr.sqrt ((s.position.x - (s.currentPath.getD s.currentPathIndex (0, 0)).1) ^ 2 +
        (s.position.z - (s.currentPath.getD s.currentPathIndex (0, 0)).2) ^ 2) < 1 then
    if s.currentPath.length ≤ s.currentPathIndex + 1 then
      (.STOP, { s with currentPathIndex := s.currentPathIndex + 1, pathfindingMode := false })
    else
      followSteer tr { s with currentPathIndex := s.currentPathIndex + 1 }
        (s.currentPath.getD s.currentPathIndex (0, 0))
  else
    followSteer tr s (s.currentPath.getD s.currentPathIndex (0, 0))

/-- Pathfinding movement branch of the tick (source lines 438-475), taken when
`followPath` returned a non-STOP action: integrate velocities with the
path action, advance the position straight toward the (possibly advanced)
waypoint, snap the heading to face it, then run the cooldown-gated collision
check that aborts pathfinding.  This branch returns early, skipping the rest
of the tick. -/
def pathfindingMoveStep (tr : Trig) (inp : TickInputs) (pathAction : ActionType)
    (s : AgentState) : AgentState :=
  let k := updateMovement s.pathfindingMode inp.delta (flipCommand s.useRearView pathAction)
    ⟨s.velocity, s.rotationVelocity⟩
  let s1 : AgentState := { s with velocity := k.velocity, rotationVelocity := k.rotationVelocity }
  let w := s1.currentPath.getD s1.currentPathIndex (0, 0)
  let dirX := w.1 - s1.position.x
  let dirZ := w.2 - s1.position.z
  let dist := tr.sqrt (dirX * dirX + dirZ * dirZ)
  let s2 : AgentState :=
    if 0 < dist then
      { s1 with position :=
          { s1.position with
            x := s1.position.x + dirX / dist * s1.velocity * inp.delta,
            z := s1.position.z + dirZ / dist * s1.velocity * inp.delta } }
    else s1
  let s3 : AgentState :=
    { s2 with heading := tr.atan2 (w.1 - s2.position.x) (w.2 - s2.position.z) }
  if s3.collisionCooldown ≤ 0 then
    if checkCollisions s3.position [] then
      { s3 with
        collisionDetected := true, collisionCooldown := COLLISION_COOLDOWN_TIME,
        pathfindingMode := false, velocity := 0, rotationVelocity := 0 }
    else { s3 with collisionDetected := false }
  else s3

/-- Exploration block of the tick (source lines 485-515): two alternating
phases (forward at 1.5 for 3 seconds, then turn at rotation velocity 1.0 and
velocity 0.3 for 1.2 seconds), and deactivation at the end of the block when a
target is assigned. -/
def explorationStep (inp : TickInputs) (s : AgentState) : AgentState :=
  if s.explorationMode = true ∧ s.pathfindingMode = false then
    let s1 : AgentState :=
      if s.explorationPhase = 0 then
        if 3 < inp.elapsedTime - s.explorationStartTime then
          { s with
            velocity := 1.5, rotationVelocity := 0,
            explorationPhase := 1, explorationStartTime := inp.elapsedTime }
        else { s with velocity := 1.5, rotationVelocity := 0 }
      else if s.explorationPhase = 1 then
        if 1.2 < inp.elapsedTime - s.explorationStartTime then
          { s with
            rotationVelocity := 1, velocity := 0.3,
            explorationPhase := 0, explorationStartTime := inp.elapsedTime }
        else { s with rotationVelocity := 1, velocity := 0.3 }
      else s
    if inp.targetPosition.isSome = true then { s1 with explorationMode := false } else s1
  else s

/-- Cooldown decrements of the tick (source lines 517-523). -/
def cooldownStep (inp : TickInputs) (s : AgentState) : AgentState :=
  let s1 : AgentState :=
    if 0 < s.collisionCooldown then
      { s with collisionCooldown := s.collisionCooldown - inp.delta }
    else s
  if 0 < s1.viewSwitchCooldown then
    { s1 with viewSwitchCooldown := s1.viewSwitchCooldown - inp.delta }
  else s1

/-- Cooldown-gated collision check and rebound of the tick (source lines
525-539): on a detected collision, set the cooldown, drive the velocity to a
rebound speed capped at 2.5, and damp the angular velocity to 30 percent. -/
def collisionStep (s : AgentState) : AgentState :=
  if s.collisionCooldown ≤ 0 then
    if checkCollisions s.position [] then
      { s with
        collisionDetected := true, collisionCooldown := COLLISION_COOLDOWN_TIME,
        velocity := min 2.5 (|s.velocity| + 1.5),
        rotationVelocity := s.rotationVelocity * 0.3 }
    else { s with collisionDetected := false }
  else s

/-- Scan-rotation accumulation of the tick (source lines 544-550): add the
absolute normalized heading delta while the raw command is SCAN, otherwise
reset the accumulator to zero. -/
def scanAccumStep (inp : TickInputs) (normalizedDelta : ℚ) (s : AgentState) : AgentState :=
  if inp.action = ActionType.SCAN then
    { s with scanRotation := s.scanRotation + |normalizedDelta| }
  else
    { s with scanRotation := 0 }

/-- Soft boundary clamp of the tick (source lines 567-581): clamp each
coordinate into the interior, halve the speed and nudge the angular velocity
outward, reading the already-clamped coordinate for the nudge sign as the
source does. -/
def boundaryClampStep (s : AgentState) : AgentState :=
  let s1 : AgentState :=
    if 14 - AGENT_RADIUS < |s.position.x| then
      { s with
        position := { s.position with
          x := clampQ s.position.x (-14 + AGENT_RADIUS) (14 - AGENT_RADIUS) },
        velocity := s.velocity * 0.5,
        rotationVelocity := s.rotationVelocity +
          (if 0 < clampQ s.position.x (-14 + AGENT_RADIUS) (14 - AGENT_RADIUS)
           then 0.5 else -0.5) }
    else s
  if 14 - AGENT_RADIUS < |s1.position.z| then
    { s1 with
      position := { s1.position with
        z := clampQ s1.position.z (-14 + AGENT_RADIUS) (14 - AGENT_RADIUS) },
      velocity := s1.velocity * 0.5,
      rotationVelocity := s1.rotationVelocity +
        (if 0 < clampQ s1.position.z (-14 + AGENT_RADIUS) (14 - AGENT_RADIUS)
         then 0.5 else -0.5) }
  else s1

/-- Movement application of the tick (source lines 541-581): remap the raw
command through the view mapper, integrate the velocities, turn by the
angular velocity, translate along the (updated) heading with the sign chosen
by the active camera view, then apply the soft boundary clamp. -/
def applyMovementStep (tr : Trig) (inp : TickInputs) (s : AgentState) : AgentState :=
  let k := updateMovement s.pathfindingMode inp.delta (flipCommand s.useRearView inp.action)
    ⟨s.velocity, s.rotationVelocity⟩
  let s1 : AgentState := { s with velocity := k.velocity, rotationVelocity := k.rotationVelocity }
  let s2 : AgentState := { s1 with heading := s1.heading + s1.rotationVelocity * inp.delta }
  let d := if s2.useRearView = true then s2.velocity * inp.delta else -(s2.velocity * inp.delta)
  let s3 : AgentState :=
    { s2 with position := { s2.position with
        x := s2.position.x + tr.sin s2.heading * d,
        z := s2.position.z + tr.cos s2.heading * d } }
  boundaryClampStep s3

/-- The tail of the tick that runs except when the pathfinding movement branch
returns early (source lines 485-581). -/
def afterPathfinding (tr : Trig) (inp : TickInputs) (normalizedDelta : ℚ)
    (s : AgentState) : AgentState :=
  applyMovementStep tr inp
    (scanAccumStep inp normalizedDelta (collisionStep (cooldownStep inp (explorationStep inp s))))

/-- The tick after rotation-delta bookkeeping (source lines 382-581): the two
activation blocks, the pathfinding branch (with its early return on a
non-STOP path action, and its completion branch resetting `totalRotation`
but not `scanRotation`), then the rest of the tick. -/
def agentTickCore (tr : Trig) (inp : TickInputs) (normalizedDelta : ℚ)
    (s2 : AgentState) : AgentState :=
  let s4 := explorationActivationStep inp (pathfindingActivationStep inp s2)
  if s4.pathfindingMode = true then
    if (followPathStep tr s4).1 = ActionType.STOP then
      afterPathfinding tr inp normalizedDelta
        { (followPathStep tr s4).2 with pathfindingMode := false, totalRotation := 0 }
    else
      pathfindingMoveStep tr inp (followPathStep tr s4).1 (followPathStep tr s4).2
  else
    afterPathfinding tr inp normalizedDelta s4

/-- One full `useFrame` tick of the agent (source lines 366-582): rotation
delta tracking and normalization, total-rotation accumulation, then the
activation blocks and everything after. -/
def agentTick (tr : Trig) (inp : TickInputs) (s0 : AgentState) : AgentState :=
  agentTickCore tr inp (normalizeAngle (s0.heading - s0.lastRotationAngle))
    { s0 with
      lastRotationAngle := s0.heading,
      totalRotation := s0.totalRotation + |normalizeAngle (s0.heading - s0.lastRotationAngle)| }

/-- Iterated STOP ticks of the integrator from initial velocity `v0` with a
fixed timestep (the round-trip scenario of the spec), outside pathfinding
mode. -/
def stopSeq (v0 delta : ℚ) : ℕ → Kinematics
  | 0 => ⟨v0, 0⟩
  | n + 1 => updateMovement false delta ActionType.STOP (stopSeq v0 delta n)

/-- One step of a mission plan (`MissionStep` of `services/llm.ts`); the
`condition` and `actions` fields are carried but not consulted by the
sequencer logic. -/
structure MissionStep where
  target : String
  condition : String
  actions : List ActionType
deriving DecidableEq, Repr

/-- Mission status enumeration of `services/llm.ts` (plus the 'help' status
the parser smuggles in with a cast). -/
inductive MissionStatus where
  | pending
  | active
  | completed
  | failed
  | help
deriving DecidableEq, Repr

/-- A chained mission (`ChainedMission` of `services/llm.ts`). -/
structure ChainedMission where
  id : String
  steps : List MissionStep
  current_step : ℕ
  status : MissionStatus
deriving DecidableEq, Repr

/-- The slice of the App component's state the mission sequencer reads and
writes. -/
structure AppState where
  currentMission : Option ChainedMission
  selectedTarget : String
  isRunning : Bool
  agentAction : ActionType
deriving DecidableEq, Repr

/-- The `handleNextStep` callback (`src/unnamed/part_000` lines 41-62): with a
mission present, advance to the next step and select its target, or mark the
mission completed and stop the run when no step remains. -/
def handleNextStep (st : AppState) : AppState :=
  match st.currentMission with
  | none => st
  | some m =>
    if m.current_step + 1 < m.steps.length then
      { st with
        currentMission := some { m with
          current_step := m.current_step + 1,
          status := .active },
        selectedTarget := (m.steps.getD (m.current_step + 1) ⟨"", "", []⟩).target }
    else
      { st with currentMission := some { m with status := .completed }, isRunning := false }

/-- A vision result as the App consumes it (`VisionResponse` of `types.ts`,
already parsed into the enum). -/
structure VisionResponse where
  action : ActionType
  reasoning : String
  targetVisible : Bool
  confidence : Option ℚ
deriving DecidableEq, Repr

/-- Truthiness-and-threshold test `result.confidence && result.confidence >
0.8` of the source: an absent confidence is falsy; a present confidence of 0
is also falsy in JS, and coincides with failing the 0.8 threshold. -/
def confidenceTruthyAbove (c : Option ℚ) : Bool :=
  match c with
  | none => false
  | some v => decide ((0.8 : ℚ) < v)

/-- Target-reached guard of `handleVisionCapture` (`src/unnamed/part_000`
line 85): STOP action, target visible, and confidence strictly above 0.8. -/
def targetReachedCheck (r : VisionResponse) : Bool :=
  decide (r.action = ActionType.STOP) && r.targetVisible && confidenceTruthyAbove r.confidence

/-- The mission-sequencing part of `handleVisionCapture` (`src/unnamed/part_000`
lines 64-110): guard on a running simulation, record the action, and on the
target-reached check either auto-advance the matching mission step (the
source defers this with a timer; modeled as immediate) or stop a
single-target run. -/
def handleVisionCapture (st : AppState) (r : VisionResponse) : AppState :=
  if st.isRunning = false then st
  else
    let st1 : AppState := { st with agentAction := r.action }
    if targetReachedCheck r then
      match st1.currentMission with
      | some m =>
        match m.steps.get? m.current_step with
        | some cs => if cs.target = st1.selectedTarget then handleNextStep st1 else st1
        | none => st1
      | none => { st1 with isRunning := false }
    else st1

/-- A running single-step mission whose only target is `t`, as
`handleMissionSubmit` sets it up (first step's target selected, run
started). -/
def singleStepMission (t : String) : AppState :=
  { currentMission := some
      { id := "mission-1", steps := [{ target := t, condition := "reached", actions := [] }],
        current_step := 0, status := .active },
    selectedTarget := t, isRunning := true, agentAction := .IDLE }

/-- A STOP vision result with the target visible at the given confidence. -/
def stopResult (c : ℚ) : VisionResponse :=
  { action := .STOP, reasoning := "Target centered and close.", targetVisible := true,
    confidence := some c }

/-- Fold a list of confidences as successive STOP results through the
sequencer. -/
def missionDemo (t : String) (cs : List ℚ) : AppState :=
  cs.foldl (fun st c => handleVisionCapture st (stopResult c)) (singleStepMission t)

/-- Raw JSON payload fields of a vision response as the HTTP client reads
them: every field may be absent, and no runtime validation is applied by the
source (its `as ActionType` is a compile-time cast). -/
structure RawVisionResponse where
  action : Option String
  reasoning : Option String
  targetVisible : Option Bool
  confidence : Option ℚ
  boundingBox : Option (List ℚ)
deriving DecidableEq, Repr

/-- Outcome of reading the response body: `response.json()` either rejects or
yields a parsed object. -/
inductive BodyOutcome where
  | parseError (message : String)
  | parsed (data : RawVisionResponse)
deriving DecidableEq, Repr

/-- Outcome of the `fetch` call: rejection with an error message, or an HTTP
response with its `ok` flag, status text and body. -/
inductive FetchOutcome where
  | networkFailure (message : String)
  | response (ok : Bool) (statusText : String) (body : BodyOutcome)
deriving DecidableEq, Repr

/-- The `error.message.includes(...)` checks of the catch branch. -/
def strIncludes (s pattern : String) : Bool := s.containsSubstr pattern

/-- Fallback reason string chosen by the catch branch of `getNavCommand`
(`src/services/sam2.ts` lines 32-47). -/
def sam2FallbackMessage (errMsg : String) : String :=
  if strIncludes errMsg "Failed to fetch" || strIncludes errMsg "NetworkError" then
    "SAM2 backend not running. Please start the Python backend server."
  else
    "SAM2 backend unavailable. Falling back to scan mode."

/-- Result the catch branch of `getNavCommand` returns: SCAN, a descriptive
reason, target not visible. -/
def sam2CatchResult (errMsg : String) : RawVisionResponse :=
  { action := some "SCAN", reasoning := some (sam2FallbackMessage errMsg),
    targetVisible := some false, confidence := none, boundingBox := none }

/-- The `getNavCommand` HTTP client (`src/services/sam2.ts`): a fetch
rejection or a thrown non-ok status or a JSON parse failure all land in the
catch branch; a body that parses is passed through field by field with no
validation. -/
def getNavCommand (outcome : FetchOutcome) : RawVisionResponse :=
  match outcome with
  | .networkFailure msg => sam2CatchResult msg
  | .response ok statusText body =>
    if ok = false then sam2CatchResult ("SAM2 backend error: " ++ statusText)
    else
      match body with
      | .parseError msg => sam2CatchResult msg
      | .parsed d => d

/-- Service failures in the sense of the error-handling design: a network
error, a non-success HTTP status, or a body that is not valid JSON.  A body
that parses but lacks the expected fields is not caught by the source. -/
def isServiceFailure (o : FetchOutcome) : Bool :=
  match o with
  | .networkFailure _ => true
  | .response _ _ (.parseError _) => true
  | .response ok _ (.parsed _) => !ok

/-- An HTTP 200 response whose JSON body parses but carries none of the
expected fields. -/
def malformedPayload : FetchOutcome :=
  .response true "OK" (.parsed
    { action := none, reasoning := none, targetVisible := none, confidence := none,
      boundingBox := none })

/-- Concrete agent state one tick before pathfinding completion: pathfinding
mode is active with the waypoint index already past the single-waypoint path,
the agent sits safely away from every wall, the heading has advanced 0.1 rad
since the last tick, and both accumulators are zero. -/
def completionTickState : AgentState :=
  { position := ⟨5, 0, 5⟩, heading := 1/10, velocity := 0, rotationVelocity := 0,
    collisionDetected := false, collisionCooldown := 5, useRearView := false,
    viewSwitchCooldown := 0, explorationMode := false, explorationStartTime := 0,
    explorationPhase := 0, lastRotationAngle := 0, totalRotation := 0, scanRotation := 0,
    pathfindingMode := true, currentPath := [(0, 0)], currentPathIndex := 1 }

/-- Concrete tick inputs: SCAN command, no target assigned, a small frame
delta. -/
def completionTickInput : TickInputs :=
  { action := .SCAN, targetPosition := none, delta := 1/100, elapsedTime := 0 }

/-- Concrete north-half agent state with the scan accumulator past the
threshold and pathfinding inactive. -/
def northScanState : AgentState :=
  { position := ⟨3, 0, 4⟩, heading := 0, velocity := 0, rotationVelocity := 0,
    collisionDetected := false, collisionCooldown := 0, useRearView := false,
    viewSwitchCooldown := 0, explorationMode := false, explorationStartTime := 0,
    explorationPhase := 0, lastRotationAngle := 0, totalRotation := 0, scanRotation := 7,
    pathfindingMode := false, currentPath := [], currentPathIndex := 0 }

/-- Concrete inputs assigning a south-half target under a SCAN command. -/
def southTargetInput : TickInputs :=
  { action := .SCAN, targetPosition := some ⟨1, 0, -5⟩, delta := 1/100, elapsedTime := 0 }

/-- Concrete agent standing exactly at the gap center with the scan
accumulator past the threshold. -/
def gapCenterState : AgentState :=
  { position := ⟨0, 0, 0⟩, heading := 0, velocity := 0, rotationVelocity := 0,
    collisionDetected := false, collisionCooldown := 0, useRearView := false,
    viewSwitchCooldown := 0, explorationMode := false, explorationStartTime := 0,
    explorationPhase := 0, lastRotationAngle := 0, totalRotation := 0, scanRotation := 7,
    pathfindingMode := false, currentPath := [], currentPathIndex := 0 }

/-- Concrete agent state in exploration turn phase (phase 1). -/
def explorationTurnState : AgentState :=
  { position := ⟨2, 0, 6⟩, heading := 0, velocity := 3/2, rotationVelocity := 0,
    collisionDetected := false, collisionCooldown := 0, useRearView := false,
    viewSwitchCooldown := 0, explorationMode := true, explorationStartTime := 10,
    explorationPhase := 1, lastRotationAngle := 0, totalRotation := 1, scanRotation := 0,
    pathfindingMode := false, currentPath := [], currentPathIndex := 0 }

end SAM2

namespace SAM2

/-! ## Helper lemmas -/

/-- The embedded double value of pi is positive. -/
theorem mathPI_pos : (0 : ℚ) < mathPI := by norm_num [mathPI]

/-- Closed form of the iterated STOP integrator: a geometric decay of the
initial velocity with ratio `1 - 2 * delta`. -/
theorem stopSeq_velocity (v0 d : ℚ) : ∀ n, (stopSeq v0 d n).velocity = v0 * (1 - 2 * d) ^ n
  | 0 => by simp [stopSeq]
  | n + 1 => by
    rw [stopSeq]
    simp only [updateMovement, movementTargets, lerp]
    rw [stopSeq_velocity v0 d n]
    ring

/-! ## C10: the rear-view command remapping -/

/-- C10: `flipCommand` is an involution for every rear-view state; with rear
view inactive it is the identity; with rear view active it swaps LEFT and
RIGHT and fixes FORWARD, STOP, SCAN and IDLE. -/
theorem flipCommand_involution :
    ∀ (rear : Bool) (cmd : ActionType),
      flipCommand rear (flipCommand rear cmd) = cmd ∧
      flipCommand false cmd = cmd ∧
      flipCommand true ActionType.LEFT = ActionType.RIGHT ∧
      flipCommand true ActionType.RIGHT = ActionType.LEFT ∧
      flipCommand true ActionType.FORWARD = ActionType.FORWARD ∧
      flipCommand true ActionType.STOP = ActionType.STOP ∧
      flipCommand true ActionType.SCAN = ActionType.SCAN ∧
      flipCommand true ActionType.IDLE = ActionType.IDLE := by
  intro rear cmd
  refine ⟨?_, ?_, rfl, rfl, rfl, rfl, rfl, rfl⟩ <;> cases rear <;> cases cmd <;> rfl

/-! ## C1: central-wall collision band -/

/-- C1 (amended): inside the central wall's thickness band (depth within
0.65 of the wall plane) and with no obstacles, `checkCollisions` reports a
collision exactly when the lateral coordinate lies in a solid wall segment
inflated by the agent radius: 2.6 < |x| < 20.4.  In particular positions with
|x| at most 2.6 = gap half-width minus agent radius are collision free, but
the band 2.6 < |x| < 3 of the nominal gap is not. -/
theorem checkCollisions_central_band (p : Vec3) (hz : |p.z| < 0.65) :
    (checkCollisions p [] = true ↔ 2.6 < |p.x| ∧ |p.x| < 20.4) := by
  rcases abs_lt.mp hz with ⟨hz1, hz2⟩
  simp only [checkCollisions, checkCollisionsRest, leftWallCenterX, rightWallCenterX,
    wallSegmentHalfWidth, gapHalfWidth, AGENT_RADIUS, List.any_nil, sub_zero]
  have hband : |p.z| < (0.4 : ℚ) + 0.25 := by
    rw [abs_lt]; constructor <;> [linarith; linarith]
  rw [if_pos hband]
  by_cases hL : |p.x - -(8.5 + 3 : ℚ)| < 8.5 + 0.4
  · rw [if_pos hL]
    rcases abs_lt.mp hL with ⟨hL1, hL2⟩
    refine ⟨fun _ => ⟨lt_abs.mpr (Or.inr (by linarith)), abs_lt.mpr ⟨by linarith, by linarith⟩⟩,
      fun _ => rfl⟩
  · rw [if_neg hL]
    by_cases hR : |p.x - (8.5 + 3 : ℚ)| < 8.5 + 0.4
    · rw [if_pos hR]
      rcases abs_lt.mp hR with ⟨hR1, hR2⟩
      refine ⟨fun _ => ⟨lt_abs.mpr (Or.inl (by linarith)), abs_lt.mpr ⟨by linarith, by linarith⟩⟩,
        fun _ => rfl⟩
    · rw [if_neg hR]
      have hL' : (8.5 + 0.4 : ℚ) ≤ |p.x - -(8.5 + 3)| := not_lt.mp hL
      have hR' : (8.5 + 0.4 : ℚ) ≤ |p.x - (8.5 + 3)| := not_lt.mp hR
      have hside : |p.x| ≤ 2.6 ∨ 20.4 ≤ |p.x| := by
        rcases le_abs.mp hL' with hL'' | hL'' <;> rcases le_abs.mp hR' with hR'' | hR''
        · exact Or.inr (le_abs.mpr (Or.inl (by linarith)))
        · exact Or.inl (abs_le.mpr ⟨by linarith, by linarith⟩)
        · exact absurd (by linarith : p.x < p.x) (lt_irrefl p.x)
        · exact Or.inr (le_abs.mpr (Or.inr (by linarith)))
      have hnot : ¬(2.6 < |p.x| ∧ |p.x| < 20.4) := by
        rintro ⟨h1, h2⟩
        rcases hside with h | h <;> linarith
      by_cases hG : |p.x| < (3 : ℚ)
      · rw [if_pos hG]
        exact ⟨fun h => absurd h (by simp), fun hc => absurd hc hnot⟩
      · rw [if_neg hG]
        have hz14a : ¬(|p.z - 14| < (0.4 : ℚ) + 0.5 / 2 ∧ |p.x| < 14) := by
          rintro ⟨ha, _⟩
          rcases abs_lt.mp ha with ⟨a1, _⟩
          linarith
        have hz14b : ¬(|p.z + 14| < (0.4 : ℚ) + 0.5 / 2 ∧ |p.x| < 14) := by
          rintro ⟨ha, _⟩
          rcases abs_lt.mp ha with ⟨_, a2⟩
          linarith
        have hx14a : ¬(|p.x - 14| < (0.4 : ℚ) + 0.5 / 2 ∧ |p.z| < 14) := by
          rintro ⟨ha, _⟩
          rcases abs_lt.mp ha with ⟨a1, a2⟩
          rcases hside with h | h
          · linarith [le_abs_self p.x]
          · rcases le_abs.mp h with h' | h' <;> linarith
        have hx14b : ¬(|p.x + 14| < (0.4 : ℚ) + 0.5 / 2 ∧ |p.z| < 14) := by
          rintro ⟨ha, _⟩
          rcases abs_lt.mp ha with ⟨a1, a2⟩
          rcases hside with h | h
          · linarith [neg_abs_le p.x]
          · rcases le_abs.mp h with h' | h' <;> linarith
        rw [if_neg hz14a, if_neg hz14b, if_neg hx14a, if_neg hx14b]
        exact ⟨fun h => absurd h (by simp), fun hc => absurd hc hnot⟩

/-- Witness for C1 at the concrete in-band position (5, 0, 0). -/
theorem checkCollisions_central_band_witness :
    checkCollisions ⟨5, 0, 0⟩ [] = true ↔ 2.6 < |(5 : ℚ)| ∧ |(5 : ℚ)| < 20.4 :=
  checkCollisions_central_band ⟨5, 0, 0⟩ (by show |(0 : ℚ)| < 0.65; norm_num)

/-- Counterexample for C1 as stated: the position (2.8, 0, 0) lies in the
nominal gap band (|x| < 3) yet `checkCollisions` reports a collision, because
the solid segments are inflated by the agent radius. -/
theorem checkCollisions_gap_band_cex :
    checkCollisions ⟨14/5, 0, 0⟩ [] = true ∧ |(14/5 : ℚ)| < gapHalfWidth := by
  constructor
  · norm_num [checkCollisions, checkCollisionsRest, leftWallCenterX, rightWallCenterX,
      wallSegmentHalfWidth, gapHalfWidth, AGENT_RADIUS, abs]
  · rw [gapHalfWidth, abs_of_nonneg (by norm_num)]
    norm_num

/-! ## C2: per-tick kinematics bounds of the integrator -/

/-- C2 (amended): the integrator's bounds form an inductive invariant rather
than an unconditional fact.  For a tick timestep in [0, 1/4] and initial
kinematics already satisfying them, `updateMovement` keeps the forward
velocity in [0, MAX_SPEED] and the angular velocity within 0.81 =
ROT_SPEED * 0.8 * 1.5 (the SCAN angular target, which exceeds ROT_SPEED) in
absolute value, for every command. -/
theorem updateMovement_bounds (pf : Bool) (delta : ℚ) (a : ActionType) (k : Kinematics)
    (hd0 : 0 ≤ delta) (hd1 : delta ≤ 1/4)
    (hv0 : 0 ≤ k.velocity) (hv1 : k.velocity ≤ MAX_SPEED pf)
    (hr : |k.rotationVelocity| ≤ 0.81) :
    0 ≤ (updateMovement pf delta a k).velocity ∧
      (updateMovement pf delta a k).velocity ≤ MAX_SPEED pf ∧
      |(updateMovement pf delta a k).rotationVelocity| ≤ 0.81 := by
  rcases abs_le.mp hr with ⟨hr1, hr2⟩
  have hM : (0 : ℚ) < MAX_SPEED pf := by cases pf <;> norm_num [MAX_SPEED]
  cases a <;>
    simp only [updateMovement, movementTargets, lerp, ROT_SPEED] <;>
    refine ⟨by nlinarith, by nlinarith, abs_le.mpr ⟨by nlinarith, by nlinarith⟩⟩

/-- Witness for C2 at a concrete in-range state under FORWARD. -/
theorem updateMovement_bounds_witness :
    0 ≤ (updateMovement false (1/10) ActionType.FORWARD ⟨1, 0⟩).velocity ∧
      (updateMovement false (1/10) ActionType.FORWARD ⟨1, 0⟩).velocity ≤ MAX_SPEED false ∧
      |(updateMovement false (1/10) ActionType.FORWARD ⟨1, 0⟩).rotationVelocity| ≤ 0.81 :=
  updateMovement_bounds false (1/10) ActionType.FORWARD ⟨1, 0⟩ (by norm_num) (by norm_num)
    (by show (0 : ℚ) ≤ 1; norm_num) (by show (1 : ℚ) ≤ MAX_SPEED false; norm_num [MAX_SPEED])
    (by show |(0 : ℚ)| ≤ 0.81; norm_num)

/-- Counterexample for C2 as stated: from the initial (arbitrary) velocity
-1, one STOP tick leaves the velocity at -4/5, outside [0, max]. -/
theorem updateMovement_stop_negative_cex :
    (updateMovement false (1/10) ActionType.STOP ⟨-1, 0⟩).velocity = -4/5 ∧
      (-4/5 : ℚ) < 0 := by
  refine ⟨?_, by norm_num⟩
  norm_num [updateMovement, movementTargets, lerp]

/-! ## C7: repeated STOP drives the velocity down -/

/-- C7 (amended): from any nonnegative initial velocity, iterating STOP with
a fixed timestep in (0, 1/2] keeps the velocity nonnegative and
non-increasing, and drives it below every positive tolerance within finitely
many ticks; and for a timestep strictly below 1/2 a strictly positive
initial velocity stays strictly positive after every tick (the decay is
geometric with factor 1 - 2 * delta), so it never reaches exactly zero. -/
theorem stopSeq_stop_drives_velocity_down (v0 d eps : ℚ)
    (hv : 0 ≤ v0) (hd0 : 0 < d) (hd1 : d ≤ 1/2) (he : 0 < eps) :
    (∀ n, 0 ≤ (stopSeq v0 d n).velocity) ∧
      (∀ n, (stopSeq v0 d (n + 1)).velocity ≤ (stopSeq v0 d n).velocity) ∧
      (∃ N, (stopSeq v0 d N).velocity < eps) ∧
      (d < 1/2 → 0 < v0 → ∀ n, 0 < (stopSeq v0 d n).velocity) := by
  have hr0 : (0 : ℚ) ≤ 1 - 2 * d := by linarith
  have hr1 : (1 : ℚ) - 2 * d < 1 := by linarith
  refine ⟨fun n => ?_, fun n => ?_, ?_, fun hd hv0 n => ?_⟩
  · rw [stopSeq_velocity]
    exact mul_nonneg hv (pow_nonneg hr0 n)
  · rw [stopSeq_velocity, stopSeq_velocity, pow_succ]
    nlinarith [mul_nonneg (mul_nonneg hv (pow_nonneg hr0 n)) hd0.le]
  · rcases eq_or_lt_of_le hv with h0 | h0
    · refine ⟨0, ?_⟩
      rw [stopSeq_velocity, pow_zero, mul_one, ← h0]
      exact he
    · obtain ⟨N, hN⟩ := exists_pow_lt_of_lt_one (div_pos he h0) hr1
      refine ⟨N, ?_⟩
      rw [stopSeq_velocity]
      calc v0 * (1 - 2 * d) ^ N < v0 * (eps / v0) := mul_lt_mul_of_pos_left hN h0
        _ = eps := by field_simp
  · rw [stopSeq_velocity]
    exact mul_pos hv0 (pow_pos (by linarith) n)

/-- Witness for C7 from velocity 1 with timestep 1/10 and tolerance 1/2. -/
theorem stopSeq_stop_drives_velocity_down_witness :
    (∀ n, 0 ≤ (stopSeq 1 (1/10) n).velocity) ∧
      (∀ n, (stopSeq 1 (1/10) (n + 1)).velocity ≤ (stopSeq 1 (1/10) n).velocity) ∧
      (∃ N, (stopSeq 1 (1/10) N).velocity < 1/2) ∧
      ((1 : ℚ)/10 < 1/2 → (0 : ℚ) < 1 → ∀ n, 0 < (stopSeq 1 (1/10) n).velocity) :=
  stopSeq_stop_drives_velocity_down 1 (1/10) (1/2) (by norm_num) (by norm_num) (by norm_num)
    (by norm_num)

/-- Counterexample for C7 as stated: from velocity 1 with timestep 1/10, no
number of STOP ticks makes the velocity exactly zero (the lerp decay is
geometric with ratio 4/5). -/
theorem stopSeq_never_zero_cex :
    (∃ n, (stopSeq 1 (1/10) n).velocity = 0) = False := by
  apply eq_false
  rintro ⟨n, hn⟩
  rw [stopSeq_velocity] at hn
  norm_num at hn

/-! ## C9: vision-service failure fallback -/

/-- C9 (amended): for every service failure the source actually catches (a
fetch rejection, a thrown non-ok status, or a body that fails JSON parsing)
`getNavCommand` returns action SCAN, target not visible, and a non-empty
reason string.  A body that parses as JSON is passed through with no
validation, so this does not extend to shape-malformed payloads. -/
theorem getNavCommand_failure_scan (o : FetchOutcome) (h : isServiceFailure o = true) :
    (getNavCommand o).action = some "SCAN" ∧ (getNavCommand o).targetVisible = some false ∧
      ∃ msg, (getNavCommand o).reasoning = some msg ∧ 0 < msg.length := by
  have hmsg : ∀ e, 0 < (sam2FallbackMessage e).length := by
    intro e
    rw [sam2FallbackMessage]
    split_ifs <;> decide
  match o with
  | .networkFailure m =>
    exact ⟨rfl, rfl, sam2FallbackMessage m, rfl, hmsg m⟩
  | .response false st body =>
    exact ⟨rfl, rfl, sam2FallbackMessage ("SAM2 backend error: " ++ st), rfl,
      hmsg ("SAM2 backend error: " ++ st)⟩
  | .response true st (.parseError m) =>
    exact ⟨rfl, rfl, sam2FallbackMessage m, rfl, hmsg m⟩
  | .response true st (.parsed d) =>
    exact absurd h (by simp [isServiceFailure])

/-- Witness for C9 at a concrete network failure. -/
theorem getNavCommand_failure_scan_witness :
    (getNavCommand (.networkFailure "Failed to fetch")).action = some "SCAN" ∧
      (getNavCommand (.networkFailure "Failed to fetch")).targetVisible = some false ∧
      ∃ msg, (getNavCommand (.networkFailure "Failed to fetch")).reasoning = some msg ∧
        0 < msg.length :=
  getNavCommand_failure_scan (.networkFailure "Failed to fetch") rfl

/-- Counterexample for C9 as stated: an HTTP 200 response whose JSON body
parses but carries none of the expected fields is a malformed payload, yet it
is returned as-is: the action is not SCAN, the reasoning is absent, and
targetVisible is not false. -/
theorem getNavCommand_malformed_cex :
    (getNavCommand malformedPayload).action = none ∧
      (getNavCommand malformedPayload).reasoning = none ∧
      (getNavCommand malformedPayload).targetVisible = none :=
  ⟨rfl, rfl, rfl⟩

end SAM2

namespace SAM2

/-! ## Lemmas about the tick's building blocks -/

/-- The completion branch's record update does not touch the scan
accumulator. -/
theorem scanRotation_completion_update (X : AgentState) :
    ({ X with pathfindingMode := false, totalRotation := 0 } : AgentState).scanRotation =
      X.scanRotation := rfl

/-- The exploration block never touches the scan accumulator. -/
theorem explorationStep_scanRotation (inp : TickInputs) (s : AgentState) :
    (explorationStep inp s).scanRotation = s.scanRotation := by
  simp only [explorationStep]
  split_ifs <;> rfl

/-- Cooldown bookkeeping never touches the scan accumulator. -/
theorem cooldownStep_scanRotation (inp : TickInputs) (s : AgentState) :
    (cooldownStep inp s).scanRotation = s.scanRotation := by
  simp only [cooldownStep]
  split_ifs <;> rfl

/-- The collision check never touches the scan accumulator. -/
theorem collisionStep_scanRotation (s : AgentState) :
    (collisionStep s).scanRotation = s.scanRotation := by
  simp only [collisionStep]
  split_ifs <;> rfl

/-- The boundary clamp never touches the scan accumulator. -/
theorem boundaryClampStep_scanRotation (s : AgentState) :
    (boundaryClampStep s).scanRotation = s.scanRotation := by
  simp only [boundaryClampStep]
  split_ifs <;> rfl

/-- Movement application never touches the scan accumulator. -/
theorem applyMovementStep_scanRotation (tr : Trig) (inp : TickInputs) (s : AgentState) :
    (applyMovementStep tr inp s).scanRotation = s.scanRotation := by
  simp only [applyMovementStep]
  rw [boundaryClampStep_scanRotation]

/-- Value of the scan accumulator after the accumulation block. -/
theorem scanAccumStep_scanRotation (inp : TickInputs) (nd : ℚ) (s : AgentState) :
    (scanAccumStep inp nd s).scanRotation =
      if inp.action = ActionType.SCAN then s.scanRotation + |nd| else 0 := by
  simp only [scanAccumStep]
  split_ifs <;> rfl

/-- Value of the scan accumulator after the whole post-pathfinding tail of
the tick. -/
theorem afterPathfinding_scanRotation (tr : Trig) (inp : TickInputs) (nd : ℚ)
    (s : AgentState) :
    (afterPathfinding tr inp nd s).scanRotation =
      if inp.action = ActionType.SCAN then s.scanRotation + |nd| else 0 := by
  rw [afterPathfinding, applyMovementStep_scanRotation, scanAccumStep_scanRotation,
    collisionStep_scanRotation, cooldownStep_scanRotation, explorationStep_scanRotation]

/-- The steering decision returns the state unchanged. -/
theorem followSteer_snd (tr : Trig) (s : AgentState) (w : ℚ × ℚ) :
    (followSteer tr s w).2 = s := by
  simp only [followSteer]
  split_ifs <;> rfl

/-- The steering decision never returns STOP. -/
theorem followSteer_fst_ne_stop (tr : Trig) (s : AgentState) (w : ℚ × ℚ) :
    (followSteer tr s w).1 ≠ ActionType.STOP := by
  simp only [followSteer]
  split_ifs <;> simp

/-- Following the path never touches the scan accumulator. -/
theorem followPathStep_snd_scanRotation (tr : Trig) (s : AgentState) :
    ((followPathStep tr s).2).scanRotation = s.scanRotation := by
  simp only [followPathStep]
  split_ifs <;> simp [followSteer_snd]

/-- With at least two waypoints still ahead, following the path does not
return STOP. -/
theorem followPathStep_fst_ne_stop (tr : Trig) (s : AgentState)
    (h : s.currentPathIndex + 1 < s.currentPath.length) :
    (followPathStep tr s).1 ≠ ActionType.STOP := by
  rw [followPathStep]
  rw [if_neg (by push_neg; omega)]
  split_ifs with h1 h2
  · exact absurd h2 (by omega)
  · exact followSteer_fst_ne_stop tr _ _
  · exact followSteer_fst_ne_stop tr _ _

/-- A path to the opposite side always has the full seven waypoints. -/
theorem findPathThroughGap_opposite_length (x z : ℚ) :
    (findPathThroughGap x z (oppositeSide (determineAgentSide z))).length = 7 := by
  rw [findPathThroughGap, if_neg (by cases h : determineAgentSide z <;> simp [h, oppositeSide])]
  rfl

/-- The path fired by the activation block. -/
theorem pathfindingActivationStep_currentPath_of_fires (inp : TickInputs) (s : AgentState)
    (h : activationFires inp s) :
    (pathfindingActivationStep inp s).currentPath =
      findPathThroughGap s.position.x s.position.z
        (oppositeSide (determineAgentSide s.position.z)) := by
  rw [pathfindingActivationStep, if_pos h]

/-- The maze half of the last waypoint of an opposite-side path is the
opposite half, whatever the start position. -/
theorem findPathThroughGap_opposite_last_side (x z : ℚ) :
    determineTargetSide
        (((findPathThroughGap x z (oppositeSide (determineAgentSide z))).getLastD (0, 0)).2)
      = oppositeSide (determineAgentSide z) := by
  rw [findPathThroughGap, if_neg (by cases h : determineAgentSide z <;> simp [h, oppositeSide])]
  cases h : determineAgentSide z <;>
    simp [h, oppositeSide, determineTargetSide, BOUNDARY]

/-! ## C3: pathfinding activation -/

/-- C3: after the activation block, pathfinding is active exactly when it
already was or the scan accumulator exceeds two pi with a target assigned; in
particular with no target the block is the identity (it never activates); and
when it fires, the synthesized path always ends on the half opposite the
agent's current half, independent of where the target is. -/
theorem pathfinding_activation (inp : TickInputs) (s : AgentState) :
    ((pathfindingActivationStep inp s).pathfindingMode = true ↔
      (s.pathfindingMode = true ∨
        (2 * mathPI < s.scanRotation ∧ inp.targetPosition.isSome = true)))
    ∧ (inp.targetPosition = none → pathfindingActivationStep inp s = s)
    ∧ (activationFires inp s →
        determineTargetSide
            (((pathfindingActivationStep inp s).currentPath).getLastD (0, 0)).2
          = oppositeSide (determineAgentSide s.position.z)) := by
  refine ⟨?_, ?_, ?_⟩
  · rw [pathfindingActivationStep]
    split_ifs with h
    · refine ⟨fun _ => ?_, fun _ => rfl⟩
      rcases h with ⟨h1, _, h3⟩
      exact Or.inr ⟨h1, h3⟩
    · constructor
      · exact Or.inl
      · rintro (h1 | ⟨h1, h2⟩)
        · exact h1
        · cases hb : s.pathfindingMode
          · exact absurd ⟨h1, hb, h2⟩ h
          · rfl
  · intro hnone
    rw [pathfindingActivationStep, if_neg]
    rintro ⟨-, -, hsome⟩
    rw [hnone] at hsome
    simp at hsome
  · intro h
    rw [pathfindingActivationStep_currentPath_of_fires inp s h]
    exact findPathThroughGap_opposite_last_side s.position.x s.position.z

/-! ## C4: the north-to-south path through the gap -/

/-- C4 (amended): from every north-half start other than the gap center
itself, with a south-half target assigned and the activation guard firing,
the synthesized path contains the gap center (0, 0) exactly once and its
final waypoint has a strictly negative depth inside the boundary.  (Starting
exactly at (0, 0) the start waypoint duplicates the gap center.) -/
theorem pathfinding_path_gap_center (inp : TickInputs) (s : AgentState) (t : Vec3)
    (_ht : inp.targetPosition = some t) (_htz : t.z < 0)
    (hz : 0 ≤ s.position.z) (hne : ¬(s.position.x = 0 ∧ s.position.z = 0))
    (hf : activationFires inp s) :
    ((pathfindingActivationStep inp s).currentPath).count ((0 : ℚ), (0 : ℚ)) = 1 ∧
      (((pathfindingActivationStep inp s).currentPath).getLastD (0, 0)).2 < 0 ∧
      -14 < (((pathfindingActivationStep inp s).currentPath).getLastD (0, 0)).2 := by
  rw [pathfindingActivationStep_currentPath_of_fires inp s hf]
  have hside : determineAgentSide s.position.z = .north := by
    rw [determineAgentSide, if_pos hz]
  rw [findPathThroughGap, if_neg (by rw [hside]; simp [oppositeSide])]
  rw [hside]
  have hm10 : ((-10 : ℚ) ⊔ -12) = -10 := by rw [sup_eq_left]; norm_num
  have hm8 : ((-8 : ℚ) ⊔ -12) = -8 := by rw [sup_eq_left]; norm_num
  refine ⟨?_, ?_, ?_⟩
  · simp [List.count_cons, Prod.ext_iff, hne, oppositeSide, BOUNDARY, hm10, hm8]
  · simp [oppositeSide, BOUNDARY]
  · simp [oppositeSide, BOUNDARY]
    norm_num

end SAM2

namespace SAM2

/-- The exploration activation block never touches the scan accumulator. -/
theorem explorationActivationStep_scanRotation (inp : TickInputs) (s : AgentState) :
    (explorationActivationStep inp s).scanRotation = s.scanRotation := by
  simp only [explorationActivationStep]
  split_ifs <;> rfl

/-- The exploration activation block never touches pathfinding mode. -/
theorem explorationActivationStep_pathfindingMode (inp : TickInputs) (s : AgentState) :
    (explorationActivationStep inp s).pathfindingMode = s.pathfindingMode := by
  simp only [explorationActivationStep]
  split_ifs <;> rfl

/-- The exploration activation block never touches the current path. -/
theorem explorationActivationStep_currentPath (inp : TickInputs) (s : AgentState) :
    (explorationActivationStep inp s).currentPath = s.currentPath := by
  simp only [explorationActivationStep]
  split_ifs <;> rfl

/-- The exploration activation block never touches the waypoint index. -/
theorem explorationActivationStep_currentPathIndex (inp : TickInputs) (s : AgentState) :
    (explorationActivationStep inp s).currentPathIndex = s.currentPathIndex := by
  simp only [explorationActivationStep]
  split_ifs <;> rfl

/-- The pathfinding movement branch never touches the scan accumulator. -/
theorem pathfindingMoveStep_scanRotation (tr : Trig) (inp : TickInputs) (a : ActionType)
    (s : AgentState) :
    (pathfindingMoveStep tr inp a s).scanRotation = s.scanRotation := by
  simp only [pathfindingMoveStep]
  split_ifs <;> rfl

/-- A firing activation block zeroes the scan accumulator. -/
theorem pathfindingActivationStep_scanRotation_of_fires (inp : TickInputs) (s : AgentState)
    (h : activationFires inp s) :
    (pathfindingActivationStep inp s).scanRotation = 0 := by
  rw [pathfindingActivationStep, if_pos h]

/-- A firing activation block enters pathfinding mode. -/
theorem pathfindingActivationStep_pathfindingMode_of_fires (inp : TickInputs) (s : AgentState)
    (h : activationFires inp s) :
    (pathfindingActivationStep inp s).pathfindingMode = true := by
  rw [pathfindingActivationStep, if_pos h]

/-- A firing activation block resets the waypoint index. -/
theorem pathfindingActivationStep_currentPathIndex_of_fires (inp : TickInputs) (s : AgentState)
    (h : activationFires inp s) :
    (pathfindingActivationStep inp s).currentPathIndex = 0 := by
  rw [pathfindingActivationStep, if_pos h]

/-- A non-firing activation block is the identity. -/
theorem pathfindingActivationStep_of_not_fires (inp : TickInputs) (s : AgentState)
    (h : ¬ activationFires inp s) :
    pathfindingActivationStep inp s = s := by
  rw [pathfindingActivationStep, if_neg h]

/-- Scan accumulator behavior of the tick body, for every incoming state:
under a SCAN command, a firing activation leaves the accumulator at exactly
zero at the end of the tick, and otherwise the tick never decreases it. -/
theorem agentTickCore_scanRotation (tr : Trig) (inp : TickInputs) (nd : ℚ) (s2 : AgentState)
    (hA : inp.action = ActionType.SCAN) :
    (activationFires inp s2 → (agentTickCore tr inp nd s2).scanRotation = 0) ∧
      (¬ activationFires inp s2 → s2.scanRotation ≤ (agentTickCore tr inp nd s2).scanRotation) := by
  constructor
  · intro h
    simp only [agentTickCore]
    have hEp : (explorationActivationStep inp (pathfindingActivationStep inp s2)).pathfindingMode
        = true := by
      rw [explorationActivationStep_pathfindingMode,
        pathfindingActivationStep_pathfindingMode_of_fires inp s2 h]
    rw [if_pos hEp]
    have hidx : (explorationActivationStep inp
          (pathfindingActivationStep inp s2)).currentPathIndex + 1 <
        ((explorationActivationStep inp
          (pathfindingActivationStep inp s2)).currentPath).length := by
      rw [explorationActivationStep_currentPathIndex, explorationActivationStep_currentPath,
        pathfindingActivationStep_currentPathIndex_of_fires inp s2 h,
        pathfindingActivationStep_currentPath_of_fires inp s2 h,
        findPathThroughGap_opposite_length]
      norm_num
    rw [if_neg (followPathStep_fst_ne_stop tr _ hidx)]
    rw [pathfindingMoveStep_scanRotation, followPathStep_snd_scanRotation,
      explorationActivationStep_scanRotation,
      pathfindingActivationStep_scanRotation_of_fires inp s2 h]
  · intro h
    simp only [agentTickCore]
    rw [pathfindingActivationStep_of_not_fires inp s2 h]
    by_cases hEp : (explorationActivationStep inp s2).pathfindingMode = true
    · rw [if_pos hEp]
      by_cases hstop : (followPathStep tr (explorationActivationStep inp s2)).1
          = ActionType.STOP
      · rw [if_pos hstop, afterPathfinding_scanRotation, if_pos hA,
          scanRotation_completion_update, followPathStep_snd_scanRotation,
          explorationActivationStep_scanRotation]
        linarith [abs_nonneg nd]
      · rw [if_neg hstop, pathfindingMoveStep_scanRotation, followPathStep_snd_scanRotation,
          explorationActivationStep_scanRotation]
    · rw [if_neg hEp, afterPathfinding_scanRotation, if_pos hA,
        explorationActivationStep_scanRotation]
      linarith [abs_nonneg nd]

/-- A non-firing exploration activation block is the identity. -/
theorem explorationActivationStep_of_not_fires (inp : TickInputs) (s : AgentState)
    (h : ¬ explorationActivationFires inp s) :
    explorationActivationStep inp s = s := by
  rw [explorationActivationStep, if_neg h]

/-- The exploration block never touches pathfinding mode. -/
theorem explorationStep_pathfindingMode (inp : TickInputs) (s : AgentState) :
    (explorationStep inp s).pathfindingMode = s.pathfindingMode := by
  simp only [explorationStep]
  split_ifs <;> rfl

/-- Cooldown bookkeeping never touches pathfinding mode. -/
theorem cooldownStep_pathfindingMode (inp : TickInputs) (s : AgentState) :
    (cooldownStep inp s).pathfindingMode = s.pathfindingMode := by
  simp only [cooldownStep]
  split_ifs <;> rfl

/-- The main-path collision rebound never touches pathfinding mode. -/
theorem collisionStep_pathfindingMode (s : AgentState) :
    (collisionStep s).pathfindingMode = s.pathfindingMode := by
  simp only [collisionStep]
  split_ifs <;> rfl

/-- The scan accumulation block never touches pathfinding mode. -/
theorem scanAccumStep_pathfindingMode (inp : TickInputs) (nd : ℚ) (s : AgentState) :
    (scanAccumStep inp nd s).pathfindingMode = s.pathfindingMode := by
  simp only [scanAccumStep]
  split_ifs <;> rfl

/-- The boundary clamp never touches pathfinding mode. -/
theorem boundaryClampStep_pathfindingMode (s : AgentState) :
    (boundaryClampStep s).pathfindingMode = s.pathfindingMode := by
  simp only [boundaryClampStep]
  split_ifs <;> rfl

/-- Movement application never touches pathfinding mode. -/
theorem applyMovementStep_pathfindingMode (tr : Trig) (inp : TickInputs) (s : AgentState) :
    (applyMovementStep tr inp s).pathfindingMode = s.pathfindingMode := by
  simp only [applyMovementStep]
  rw [boundaryClampStep_pathfindingMode]

/-- The post-pathfinding tail of the tick never touches pathfinding mode. -/
theorem afterPathfinding_pathfindingMode (tr : Trig) (inp : TickInputs) (nd : ℚ)
    (s : AgentState) :
    (afterPathfinding tr inp nd s).pathfindingMode = s.pathfindingMode := by
  rw [afterPathfinding, applyMovementStep_pathfindingMode, scanAccumStep_pathfindingMode,
    collisionStep_pathfindingMode, cooldownStep_pathfindingMode, explorationStep_pathfindingMode]

/-- Shape of the tick body on a completion tick: neither activation fires,
pathfinding is active, and the waypoint index is already past the path, so
the tick leaves pathfinding mode, resets `totalRotation`, and runs the normal
tail. -/
theorem agentTickCore_completion (tr : Trig) (inp : TickInputs) (nd : ℚ) (s2 : AgentState)
    (hnf : ¬ activationFires inp s2) (hne : ¬ explorationActivationFires inp s2)
    (hpm : s2.pathfindingMode = true) (hex : s2.currentPath.length ≤ s2.currentPathIndex) :
    agentTickCore tr inp nd s2 =
      afterPathfinding tr inp nd { s2 with pathfindingMode := false, totalRotation := 0 } := by
  simp only [agentTickCore]
  rw [pathfindingActivationStep_of_not_fires inp s2 hnf,
    explorationActivationStep_of_not_fires inp s2 hne, if_pos hpm,
    followPathStep, if_pos (Or.inr hex), if_pos rfl]

/-! ## C5: scan accumulator across a tick -/

/-- C5 (amended): under a SCAN command, the scan accumulator never decreases
across a tick except at the moment pathfinding activates, where it is reset
to exactly zero (and stays zero through the activation tick); the completion
of a pathfinding cycle resets `totalRotation`, not the scan accumulator. -/
theorem scanRotation_tick (tr : Trig) (inp : TickInputs) (s : AgentState)
    (hA : inp.action = ActionType.SCAN) :
    (activationFires inp s → (agentTick tr inp s).scanRotation = 0) ∧
      (¬ activationFires inp s → s.scanRotation ≤ (agentTick tr inp s).scanRotation) :=
  agentTickCore_scanRotation tr inp (normalizeAngle (s.heading - s.lastRotationAngle))
    { s with
      lastRotationAngle := s.heading,
      totalRotation := s.totalRotation + |normalizeAngle (s.heading - s.lastRotationAngle)| } hA

/-- Witness for C5 at the concrete completion-tick state (activation does not
fire there, so the accumulator does not decrease). -/
theorem scanRotation_tick_witness :
    completionTickState.scanRotation ≤
      (agentTick trig0 completionTickInput completionTickState).scanRotation :=
  (scanRotation_tick trig0 completionTickInput completionTickState rfl).2
    (by
      rintro ⟨-, -, hs⟩
      simp [completionTickInput] at hs)

/-- Counterexample for C5 as stated: on the very tick where pathfinding
completes (pathfinding mode goes from true to false), a SCAN command with a
0.1 rad heading delta leaves the scan accumulator at 1/10, not 0 — the
completion branch resets `totalRotation` only. -/
theorem pathfinding_completion_no_scan_reset_cex :
    completionTickState.pathfindingMode = true ∧
      (agentTick trig0 completionTickInput completionTickState).pathfindingMode = false ∧
      completionTickInput.action = ActionType.SCAN ∧
      (agentTick trig0 completionTickInput completionTickState).scanRotation = 1/10 := by
  have hnd : normalizeAngle ((1 : ℚ)/10 - 0) = 1/10 := by
    rw [normalizeAngle, if_neg (by norm_num [mathPI]), normalizeAngleUp,
      if_neg (by norm_num [mathPI])]
    norm_num
  have hcompl :
      agentTick trig0 completionTickInput completionTickState =
        afterPathfinding trig0 completionTickInput
          (normalizeAngle (completionTickState.heading - completionTickState.lastRotationAngle))
          { { completionTickState with
              lastRotationAngle := completionTickState.heading,
              totalRotation := completionTickState.totalRotation +
                |normalizeAngle
                  (completionTickState.heading - completionTickState.lastRotationAngle)| } with
            pathfindingMode := false, totalRotation := 0 } := by
    rw [agentTick]
    refine agentTickCore_completion trig0 completionTickInput _ _ ?_ ?_ rfl ?_
    · rintro ⟨-, -, hs⟩
      simp [completionTickInput] at hs
    · rintro ⟨hc, -, -⟩
      have hc' : 2 * mathPI < 0 + |normalizeAngle ((1 : ℚ)/10 - 0)| := hc
      rw [hnd, abs_of_nonneg (by norm_num : (0 : ℚ) ≤ 1/10)] at hc'
      norm_num [mathPI] at hc'
    · show (1 : ℕ) ≤ 1
      exact le_refl 1
  refine ⟨rfl, ?_, rfl, ?_⟩
  · rw [hcompl, afterPathfinding_pathfindingMode]
  · rw [hcompl, afterPathfinding_scanRotation,
      if_pos (show completionTickInput.action = ActionType.SCAN from rfl)]
    show (0 : ℚ) + |normalizeAngle ((1 : ℚ)/10 - 0)| = 1/10
    rw [hnd]
    norm_num

/-! ## C8: exploration turn phase -/

/-- Exploration phase 1 commands a turn rate of exactly 1 rad per second (and
forward velocity 0.3) for its 1.2 second duration, so the commanded turn is
1.2 rad, strictly less than the 120 degrees (two thirds pi, about 2.094 rad)
announced by the code's own comment and the spec. -/
theorem exploration_turn_phase (inp : TickInputs) (s : AgentState)
    (h1 : s.explorationMode = true) (h2 : s.pathfindingMode = false)
    (h3 : s.explorationPhase = 1) :
    (explorationStep inp s).rotationVelocity = 1 ∧
      (explorationStep inp s).velocity = 0.3 ∧
      (6/5 : ℚ) < 2 * mathPI / 3 := by
  have hpi : (6/5 : ℚ) < 2 * mathPI / 3 := by norm_num [mathPI]
  refine ⟨?_, ?_, hpi⟩ <;>
  · simp only [explorationStep, h1, h2, h3]
    norm_num
    split_ifs <;> rfl

/-- Witness for C8 at a concrete phase-1 exploration state. -/
theorem exploration_turn_phase_witness :
    (explorationStep completionTickInput explorationTurnState).rotationVelocity = 1 ∧
      (explorationStep completionTickInput explorationTurnState).velocity = 0.3 ∧
      (6/5 : ℚ) < 2 * mathPI / 3 :=
  exploration_turn_phase completionTickInput explorationTurnState rfl rfl rfl

/-! ## C4 witness and counterexample -/

/-- Witness for C4 at a concrete north-half start (3, 4) with a south-half
target. -/
theorem pathfinding_path_gap_center_witness :
    ((pathfindingActivationStep southTargetInput northScanState).currentPath).count
        ((0 : ℚ), (0 : ℚ)) = 1 ∧
      (((pathfindingActivationStep southTargetInput northScanState).currentPath).getLastD
          (0, 0)).2 < 0 ∧
      -14 < (((pathfindingActivationStep southTargetInput northScanState).currentPath).getLastD
          (0, 0)).2 :=
  pathfinding_path_gap_center southTargetInput northScanState ⟨1, 0, -5⟩ rfl
    (by show (-5 : ℚ) < 0; norm_num)
    (by show (0 : ℚ) ≤ 4; norm_num)
    (by show ¬((3 : ℚ) = 0 ∧ (4 : ℚ) = 0); norm_num)
    ⟨by show 2 * mathPI < 7; norm_num [mathPI], rfl, rfl⟩

/-- Counterexample for C4 as stated: starting exactly at the gap center
(0, 0) — a north-half position by the code's own side function — with a
south-half target and a firing activation, the synthesized path contains the
gap center twice (as start waypoint and as crossing waypoint). -/
theorem pathfinding_path_gap_center_cex :
    0 ≤ gapCenterState.position.z ∧
      activationFires southTargetInput gapCenterState ∧
      ((pathfindingActivationStep southTargetInput gapCenterState).currentPath).count
        ((0 : ℚ), (0 : ℚ)) = 2 := by
  have hf : activationFires southTargetInput gapCenterState :=
    ⟨by show 2 * mathPI < 7; norm_num [mathPI], rfl, rfl⟩
  refine ⟨by show (0 : ℚ) ≤ 0; norm_num, hf, ?_⟩
  rw [pathfindingActivationStep_currentPath_of_fires southTargetInput gapCenterState hf]
  have hside : determineAgentSide gapCenterState.position.z = WallSide.north := by
    rw [determineAgentSide, if_pos (by show (0 : ℚ) ≤ 0; norm_num)]
  rw [findPathThroughGap, if_neg (by rw [hside]; simp [oppositeSide]), hside]
  have hm10 : ((-10 : ℚ) ⊔ -12) = -10 := by rw [sup_eq_left]; norm_num
  have hm8 : ((-8 : ℚ) ⊔ -12) = -8 := by rw [sup_eq_left]; norm_num
  have hsx : ((gapCenterState.position.x ⊔ -12) ⊓ 12 : ℚ) = 0 := by
    show (((0 : ℚ) ⊔ -12) ⊓ 12 : ℚ) = 0
    rw [sup_eq_left.mpr (by norm_num), inf_eq_left.mpr (by norm_num)]
  simp [List.count_cons, Prod.ext_iff, oppositeSide, BOUNDARY, hm10, hm8, hsx,
    gapCenterState]

end SAM2

namespace SAM2

/-- The target-reached guard in propositional form: STOP action, visible
target, and a present confidence strictly above 0.8. -/
theorem targetReachedCheck_iff (r : VisionResponse) :
    targetReachedCheck r = true ↔
      (r.action = ActionType.STOP ∧ r.targetVisible = true ∧
        ∃ c, r.confidence = some c ∧ (0.8 : ℚ) < c) := by
  rw [targetReachedCheck]
  cases hc : r.confidence <;>
    simp [confidenceTruthyAbove, hc, and_assoc]

/-! ## C6: mission step advance -/

/-- C6: against a running single-step mission whose selected target matches
the step, a vision result advances the mission (here: completes it and stops
the run) exactly when its action is STOP with the target visible and a
confidence strictly above 0.8; and for the confidence sequence
[0.5, 0.7, 0.85] of STOP results, the first two leave the mission untouched
and only the third completes it. -/
theorem mission_step_advance (t : String) (r : VisionResponse) :
    ((handleVisionCapture (singleStepMission t) r).isRunning = false ↔
      (r.action = ActionType.STOP ∧ r.targetVisible = true ∧
        ∃ c, r.confidence = some c ∧ (0.8 : ℚ) < c)) ∧
      (missionDemo t [1/2, 7/10]).isRunning = true ∧
      (missionDemo t [1/2, 7/10]).currentMission = (singleStepMission t).currentMission ∧
      (missionDemo t [1/2, 7/10, 17/20]).isRunning = false ∧
      (missionDemo t [1/2, 7/10, 17/20]).currentMission.map ChainedMission.status =
        some MissionStatus.completed := by
  have h1 : ∀ st : AppState, handleVisionCapture st (stopResult (1/2)) =
      if st.isRunning = false then st else { st with agentAction := ActionType.STOP } := by
    intro st
    rw [handleVisionCapture]
    split_ifs with h hr
    · rfl
    · exfalso
      rw [targetReachedCheck_iff] at hr
      rcases hr with ⟨-, -, c, hc, hgt⟩
      rw [show (stopResult (1/2)).confidence = some (1/2) from rfl] at hc
      injection hc with hc
      rw [← hc] at hgt
      norm_num at hgt
    · rfl
  have h2 : ∀ st : AppState, handleVisionCapture st (stopResult (7/10)) =
      if st.isRunning = false then st else { st with agentAction := ActionType.STOP } := by
    intro st
    rw [handleVisionCapture]
    split_ifs with h hr
    · rfl
    · exfalso
      rw [targetReachedCheck_iff] at hr
      rcases hr with ⟨-, -, c, hc, hgt⟩
      rw [show (stopResult (7/10)).confidence = some (7/10) from rfl] at hc
      injection hc with hc
      rw [← hc] at hgt
      norm_num at hgt
    · rfl
  constructor
  · rw [handleVisionCapture, if_neg (by simp [singleStepMission])]
    by_cases hr : targetReachedCheck r = true
    · rw [if_pos hr]
      rw [targetReachedCheck_iff] at hr
      constructor
      · intro _
        exact hr
      · intro _
        simp only [singleStepMission, handleNextStep, List.get?]
        norm_num
    · rw [if_neg hr]
      rw [targetReachedCheck_iff] at hr
      constructor
      · intro h
        exact absurd h (by simp [singleStepMission])
      · intro hc
        exact absurd hc hr
  · have e1 : missionDemo t [1/2, 7/10] =
        { singleStepMission t with agentAction := ActionType.STOP } := by
      rw [missionDemo, List.foldl, List.foldl, List.foldl, h1, h2]
      rw [if_neg (by simp [singleStepMission])]
      rw [if_neg (by simp [singleStepMission])]
    have e2 : missionDemo t [1/2, 7/10, 17/20] =
        handleVisionCapture { singleStepMission t with agentAction := ActionType.STOP }
          (stopResult (17/20)) := by
      rw [missionDemo, List.foldl, List.foldl, List.foldl, List.foldl, h1, h2]
      rw [if_neg (by simp [singleStepMission])]
      rw [if_neg (by simp [singleStepMission])]
    have e3 : handleVisionCapture { singleStepMission t with agentAction := ActionType.STOP }
        (stopResult (17/20)) =
        { currentMission := some
            { id := "mission-1",
              steps := [{ target := t, condition := "reached", actions := [] }],
              current_step := 0, status := .completed },
          selectedTarget := t, isRunning := false, agentAction := ActionType.STOP } := by
      rw [handleVisionCapture, if_neg (by simp [singleStepMission])]
      rw [if_pos (by
        rw [targetReachedCheck_iff]
        exact ⟨rfl, rfl, 17/20, rfl, by norm_num⟩)]
      simp only [singleStepMission, handleNextStep, List.get?, stopResult]
      norm_num
    refine ⟨?_, ?_, ?_, ?_⟩
    · rw [e1]
      rfl
    · rw [e1]
    · rw [e2, e3]
    · rw [e2, e3]
      rfl

end SAM2
